import Mathlib

/-!
Shallow embedding of the deterministic patch‑extraction and tabular‑assembly
pipeline of the ai‑deforestation‑detection repository
(scripts/hansen_gfc_aoi.py, scripts/sentinel2_ndvi_aoi.py,
scripts/build_patch_csv_from_npz.py, scripts/config_aoi.py).

Modelling conventions:
* `numpy` arrays are modelled by `NDArray α`: a shape (list of dimension
  sizes) together with flat row‑major data.
* IEEE floats are modelled by `Option ℚ`: `none` is NaN, `some q` a finite
  value.  All float comparisons performed by the scripts follow IEEE
  semantics: any comparison against NaN is false (`floatGe`).
* `np.random.default_rng(seed=42); rng.shuffle(coords)` is an external
  library call: it applies a deterministic permutation to `coords` that is a
  function of the seed alone.  It is modelled by `npShuffle`, a seeded
  deterministic pseudo‑random permutation (an LCG‑driven selection shuffle).
  The claims depend only on the shuffle being (a) a permutation of its input
  and (b) a pure function of the seed and the input, both of which hold for
  the numpy call and for this model.
* Python exceptions are modelled by `Except String`.
-/

namespace Deforestation

/-- Python `range(0, stop, step)` for a positive `step` (the scripts only
call `range` with `stride` as the step; `range` with step 0 raises in Python
and is excluded by hypotheses below).  `stop` may be negative, in which case
the range is empty: this happens in the scripts when
`height - patch_size + 1 <= 0`. -/
def pyRange (stop : Int) (step : Nat) : List Nat :=
  if stop ≤ 0 then []
  else (List.range ((stop.toNat - 1) / step + 1)).map (fun i => step * i)

/-- The doubly nested coordinate loop shared verbatim by
`generate_patches_from_hansen` (hansen_gfc_aoi.py lines 155–158) and
`generate_patches_from_ndvi_pair` (sentinel2_ndvi_aoi.py lines 197–200):
`for row in range(0, height - patch_size + 1, stride): for col in
range(0, width - patch_size + 1, stride): coords.append((row, col))`. -/
def gridCoords (height width patch_size stride : Nat) : List (Nat × Nat) :=
  (pyRange ((height : Int) - patch_size + 1) stride).flatMap (fun row =>
    (pyRange ((width : Int) - patch_size + 1) stride).map (fun col => (row, col)))

/-- One step of a 64‑bit linear congruential generator, standing in for the
PCG64 stream behind `np.random.default_rng(seed)`. -/
def lcgNext (s : Nat) : Nat :=
  (6364136223846793005 * s + 1442695040888963407) % 18446744073709551616

/-- Fuelled selection shuffle: repeatedly pick a pseudo‑random index in the
remaining list, move that element to the output, and advance the stream. -/
def shuffleAux {α : Type} : Nat → Nat → List α → List α
  | _, _, [] => []
  | _, 0, l => l
  | s, n + 1, l =>
    let j := s % l.length
    match l.get? j with
    | none => l
    | some a => a :: shuffleAux (lcgNext s) n (l.eraseIdx j)

/-- Model of `rng = np.random.default_rng(seed=seed); rng.shuffle(l)`: a
deterministic pseudo‑random permutation of `l` that depends only on `seed`
and `l`. -/
def npShuffle {α : Type} (seed : Nat) (l : List α) : List α :=
  shuffleAux seed l.length l

/-- Coordinate generation step of `generate_patches_from_hansen`
(hansen_gfc_aoi.py lines 155–162), as executed by one invocation.
`globalState` models whatever ambient RNG state exists at call time:
`np.random.default_rng(seed=42)` constructs a fresh generator from the
constant seed and ignores it. -/
def hansenCoords (globalState : Nat) (height width patch_size stride : Nat) :
    List (Nat × Nat) :=
  let _ := globalState
  let coords :=
    (pyRange ((height : Int) - patch_size + 1) stride).flatMap (fun row =>
      (pyRange ((width : Int) - patch_size + 1) stride).map (fun col => (row, col)))
  npShuffle 42 coords

/-- Coordinate generation step of `generate_patches_from_ndvi_pair`
(sentinel2_ndvi_aoi.py lines 197–204), as executed by one invocation; the
code is line‑for‑line the same loop and the same `seed=42` shuffle. -/
def s2Coords (globalState : Nat) (height width patch_size stride : Nat) :
    List (Nat × Nat) :=
  let _ := globalState
  let coords :=
    (pyRange ((height : Int) - patch_size + 1) stride).flatMap (fun row =>
      (pyRange ((width : Int) - patch_size + 1) stride).map (fun col => (row, col)))
  npShuffle 42 coords

/- The numpy data model used by the scripts. -/

/-- A numpy ndarray: a shape and flat row‑major data. -/
structure NDArray (α : Type) where
  shape : List Nat
  data : List α
  deriving Repr, DecidableEq

instance {α : Type} : Inhabited (NDArray α) := ⟨⟨[], []⟩⟩

/-- `arr.ndim`. -/
def NDArray.ndim {α : Type} (arr : NDArray α) : Nat := arr.shape.length

/-- `arr.shape[i]` (the scripts only index shapes of known length). -/
def NDArray.shapeAt {α : Type} (arr : NDArray α) (i : Nat) : Nat :=
  arr.shape.getD i 0

/-- `arr[:, :, k]` for a 3‑D array of shape `(a, b, c)`: the `(a, b)` array
whose `(i, j)` entry is the flat entry at `i*b*c + j*c + k`. -/
def NDArray.sliceLast {α : Type} [Inhabited α] (arr : NDArray α) (k : Nat) :
    NDArray α :=
  let a := arr.shapeAt 0
  let b := arr.shapeAt 1
  let c := arr.shapeAt 2
  ⟨[a, b], (List.range (a * b)).map (fun idx => arr.data.getD (idx * c + k) default)⟩

/-- `arr[k, :, :]` for a 3‑D array of shape `(a, b, c)`: the `(b, c)` array
holding flat entries `k*b*c` through `k*b*c + b*c - 1`. -/
def NDArray.sliceFirst {α : Type} (arr : NDArray α) (k : Nat) : NDArray α :=
  let b := arr.shapeAt 1
  let c := arr.shapeAt 2
  ⟨[b, c], (arr.data.drop (k * b * c)).take (b * c)⟩

/-- `arr[row:row+p, col:col+p]` for a 2‑D array of shape `(h, w)`. -/
def NDArray.slice2 {α : Type} [Inhabited α] (arr : NDArray α) (row col p : Nat) :
    NDArray α :=
  let w := arr.shapeAt 1
  ⟨[p, p], (List.range (p * p)).map
    (fun idx => arr.data.getD ((row + idx / p) * w + (col + idx % p)) default)⟩

/-- `np.stack([x, y], axis=0)` for two equal‑shaped arrays. -/
def npStack2 {α : Type} (x y : NDArray α) : NDArray α :=
  ⟨2 :: x.shape, x.data ++ y.data⟩

/-- An NPZ container: an ordered association of key names to arrays.
`files` is the key list in declaration order; indexing is by key. -/
structure Npz (α : Type) where
  entries : List (String × NDArray α)
  deriving Repr, DecidableEq

/-- `npz.files`. -/
def Npz.files {α : Type} (z : Npz α) : List String := z.entries.map Prod.fst

/-- `npz[k]`: the first array stored under key `k` (the scripts only index
keys they have just found in `files`). -/
def Npz.get {α : Type} (z : Npz α) (k : String) : NDArray α :=
  ((z.entries.find? (fun e => e.fst = k)).map Prod.snd).getD default

/- Tensor key resolver (build_patch_csv_from_npz.py). -/

/-- `extract_ndvi_means` (build_patch_csv_from_npz.py lines 36–65): resolve
the ndvi_2018/ndvi_2022 pair from a feature NPZ.  Explicit keys win;
otherwise the first declared array is probed by shape; otherwise the single
array is returned twice. -/
def extract_ndvi_means {α : Type} [Inhabited α] (feat_npz : Npz α) :
    NDArray α × NDArray α :=
  let keys := feat_npz.files
  if "ndvi_2018" ∈ keys ∧ "ndvi_2022" ∈ keys then
    (feat_npz.get "ndvi_2018", feat_npz.get "ndvi_2022")
  else
    let arr := feat_npz.get (keys.getD 0 "")
    if arr.ndim = 3 then
      if 2 ≤ arr.shapeAt 2 then (arr.sliceLast 0, arr.sliceLast 1)
      else if 2 ≤ arr.shapeAt 0 then (arr.sliceFirst 0, arr.sliceFirst 1)
      else (arr, arr)
    else (arr, arr)

/-- `extract_label_array` (build_patch_csv_from_npz.py lines 68–79): prefer
the key named label, else the first declared array. -/
def extract_label_array {α : Type} [Inhabited α] (label_npz : Npz α) :
    NDArray α :=
  let keys := label_npz.files
  if "label" ∈ keys then label_npz.get "label"
  else label_npz.get (keys.getD 0 "")

/- Float model and per patch statistics (build_patch_csv_from_npz.py). -/

/-- An IEEE double as the scripts observe it: `none` is NaN, `some q` a
finite value (all values the pipeline manipulates are exact decimals, means
of finitely many of them, or their differences, so ℚ is lossless here). -/
abbrev PyFloat := Option ℚ

/-- IEEE comparison `x >= y`: false whenever `x` is NaN. -/
def floatGe (x : PyFloat) (y : ℚ) : Bool :=
  match x with
  | none => false
  | some q => decide (y ≤ q)

/-- `float(np.nanmean(arr))`: the mean of the non‑NaN entries, NaN when
every entry is NaN (numpy prints a RuntimeWarning in that case but raises
no exception and returns NaN). -/
def nanmean (arr : NDArray PyFloat) : PyFloat :=
  let vals := arr.data.filterMap id
  if vals.length = 0 then none else some (vals.sum / (vals.length : ℚ))

/-- IEEE subtraction: NaN if either operand is NaN. -/
def floatSub : PyFloat → PyFloat → PyFloat
  | some a, some b => some (a - b)
  | _, _ => none

/-- One CSV row (build_patch_csv_from_npz.py lines 121–131). -/
structure Row where
  aoi : String
  patch_file : String
  ndvi_2018_mean : PyFloat
  ndvi_2022_mean : PyFloat
  ndvi_diff : PyFloat
  loss_fraction : PyFloat
  loss_binary : Nat
  deriving Repr, DecidableEq

/-- The per patch body of the loop in `build_aoi_csv`
(build_patch_csv_from_npz.py lines 109–131): resolve the NDVI pair and the
label array, take NaN‑ignoring means, difference the means, and binarize
with `loss_binary = int(loss_fraction >= 0.5)`. -/
def mkRow (aoi patch_name : String) (feat_npz lab_npz : Npz PyFloat) : Row :=
  let ndvis := extract_ndvi_means feat_npz
  let label_arr := extract_label_array lab_npz
  let ndvi18_mean := nanmean ndvis.1
  let ndvi22_mean := nanmean ndvis.2
  let ndvi_diff := floatSub ndvi22_mean ndvi18_mean
  let loss_fraction := nanmean label_arr
  let loss_binary : Nat := if floatGe loss_fraction (1 / 2) then 1 else 0
  { aoi := aoi, patch_file := patch_name, ndvi_2018_mean := ndvi18_mean,
    ndvi_2022_mean := ndvi22_mean, ndvi_diff := ndvi_diff,
    loss_fraction := loss_fraction, loss_binary := loss_binary }

/-- `lab_dir / patch_name` existence check, as a lookup of the patch name
among the label artifacts. -/
def lookupName {β : Type} (n : String) : List (String × β) → Option β
  | [] => none
  | e :: rest => if e.fst = n then some e.snd else lookupName n rest

/-- The feature iteration loop of `build_aoi_csv`
(build_patch_csv_from_npz.py lines 97–131): for each feature artifact in
order, skip it (with a warning) when no label artifact shares its name,
otherwise append one row. -/
def buildRowsLoop (aoi : String) (labels : List (String × Npz PyFloat)) :
    List (String × Npz PyFloat) → List Row → List Row
  | [], rows => rows
  | fp :: rest, rows =>
    match lookupName fp.fst labels with
    | none => buildRowsLoop aoi labels rest rows
    | some lab_npz =>
      buildRowsLoop aoi labels rest (rows ++ [mkRow aoi fp.fst fp.snd lab_npz])

/-- `build_aoi_csv` (build_patch_csv_from_npz.py lines 82–141) at the level
of its observable result: the per‑AOI table, or `none` when no rows were
created (the script then returns None and writes nothing). -/
def build_aoi_csv (aoi : String)
    (features labels : List (String × Npz PyFloat)) : Option (List Row) :=
  let rows := buildRowsLoop aoi labels features []
  if rows.isEmpty then none else some rows

/- Dataset combiner (build_patch_csv_from_npz.py, main). -/

/-- Serialization of one float cell of the CSV. -/
def csvCell : PyFloat → String
  | none => "nan"
  | some q => toString q

/-- Serialization of one row of the CSV. -/
def csvRow (r : Row) : String :=
  String.intercalate "," [r.aoi, r.patch_file, csvCell r.ndvi_2018_mean,
    csvCell r.ndvi_2022_mean, csvCell r.ndvi_diff, csvCell r.loss_fraction,
    toString r.loss_binary]

/-- `df.to_csv`: the header line followed by one line per row. -/
def csvTable (rows : List Row) : String :=
  String.intercalate "\x0a"
    ("aoi,patch_file,ndvi_2018_mean,ndvi_2022_mean,ndvi_diff,loss_fraction,loss_binary"
      :: rows.map csvRow)

/-- The combine step of `main` (build_patch_csv_from_npz.py lines 144–157):
collect the per‑AOI tables that exist, abort (returning nothing) when none
do, otherwise concatenate them in AOI iteration order. -/
def combinedMain (tables : List (Option (List Row))) : Option (List Row) :=
  let all_dfs := tables.filterMap id
  if all_dfs.isEmpty then none else some all_dfs.flatten

/-- The write step of `main` (build_patch_csv_from_npz.py lines 157–165):
the combined table is serialized once to the primary name
all_patches_combined.csv and once to the alias
all_patches_features_labels_s2_ndvi.csv. -/
def mainOutputs (tables : List (Option (List Row))) : Option (String × String) :=
  (combinedMain tables).map (fun combined => (csvTable combined, csvTable combined))

/- Patch extractors (hansen_gfc_aoi.py and sentinel2_ndvi_aoi.py). -/

/-- One Hansen patch artifact: the contents of one
`np.savez_compressed(...)` call (hansen_gfc_aoi.py lines 179–186). -/
structure HansenPatch (α : Type) where
  treecover : NDArray α
  loss : NDArray α
  row : Nat
  col : Nat
  patch_size : Nat
  deriving Repr, DecidableEq

/-- The emission loop of `generate_patches_from_hansen`
(hansen_gfc_aoi.py lines 164–188): walk the shuffled coordinates, stop once
`total_patches >= target_max`, otherwise slice both rasters and emit one
artifact. -/
def hansenPatchLoop {α : Type} [Inhabited α] (tree loss : NDArray α)
    (patch_size target_max : Nat) :
    List (Nat × Nat) → Nat → List (HansenPatch α) → List (HansenPatch α) × Nat
  | [], total, acc => (acc, total)
  | rc :: rest, total, acc =>
    if target_max ≤ total then (acc, total)
    else hansenPatchLoop tree loss patch_size target_max rest (total + 1)
      (acc ++ [⟨tree.slice2 rc.1 rc.2 patch_size, loss.slice2 rc.1 rc.2 patch_size,
               rc.1, rc.2, patch_size⟩])

/-- `generate_patches_from_hansen` (hansen_gfc_aoi.py lines 125–199):
returns the emitted artifacts, the emitted count (the Python return value),
and whether the below‑target warning was printed; raises (models
`raise ValueError`) exactly on a raster shape mismatch. -/
def generate_patches_from_hansen {α : Type} [Inhabited α] (tree loss : NDArray α)
    (patch_size stride target_min target_max : Nat) :
    Except String (List (HansenPatch α) × Nat × Bool) :=
  if tree.shape ≠ loss.shape then
    Except.error "Shape mismatch between treecover and loss"
  else
    let height := tree.shapeAt 0
    let width := tree.shapeAt 1
    let coords := npShuffle 42 (gridCoords height width patch_size stride)
    let result := hansenPatchLoop tree loss patch_size target_max coords 0 []
    Except.ok (result.1, result.2, decide (result.2 < target_min))

/-- `stacked[:, row:row+p, col:col+p]` for a 3‑D array of shape `(n, h, w)`. -/
def NDArray.slice3 {α : Type} [Inhabited α] (arr : NDArray α) (row col p : Nat) :
    NDArray α :=
  let h := arr.shapeAt 1
  let w := arr.shapeAt 2
  ⟨[arr.shapeAt 0, p, p], (List.range (arr.shapeAt 0 * (p * p))).map (fun idx =>
    let band := idx / (p * p)
    let r := (idx % (p * p)) / p
    let c := idx % p
    arr.data.getD (band * (h * w) + (row + r) * w + (col + c)) default)⟩

/-- One Sentinel‑2 NDVI patch artifact: the contents of one
`np.savez_compressed(...)` call (sentinel2_ndvi_aoi.py lines 224–231). -/
structure S2Patch (α : Type) where
  ndvi : NDArray α
  row : Nat
  col : Nat
  patch_size : Nat
  years : List Nat
  deriving Repr, DecidableEq

/-- The emission loop of `generate_patches_from_ndvi_pair`
(sentinel2_ndvi_aoi.py lines 206–233). -/
def s2PatchLoop {α : Type} [Inhabited α] (stacked : NDArray α)
    (patch_size target_max : Nat) :
    List (Nat × Nat) → Nat → List (S2Patch α) → List (S2Patch α) × Nat
  | [], total, acc => (acc, total)
  | rc :: rest, total, acc =>
    if target_max ≤ total then (acc, total)
    else s2PatchLoop stacked patch_size target_max rest (total + 1)
      (acc ++ [⟨stacked.slice3 rc.1 rc.2 patch_size, rc.1, rc.2, patch_size,
               [2018, 2022]⟩])

/-- `generate_patches_from_ndvi_pair` (sentinel2_ndvi_aoi.py lines 166–244):
stacks the two NDVI rasters, walks the shuffled grid, and emits artifacts;
raises exactly on a raster shape mismatch. -/
def generate_patches_from_ndvi_pair {α : Type} [Inhabited α]
    (ndvi18 ndvi22 : NDArray α) (patch_size stride target_min target_max : Nat) :
    Except String (List (S2Patch α) × Nat × Bool) :=
  if ndvi18.shape ≠ ndvi22.shape then
    Except.error "Shape mismatch between NDVI 2018 and NDVI 2022"
  else
    let stacked := npStack2 ndvi18 ndvi22
    let height := stacked.shapeAt 1
    let width := stacked.shapeAt 2
    let coords := npShuffle 42 (gridCoords height width patch_size stride)
    let result := s2PatchLoop stacked patch_size target_max coords 0 []
    Except.ok (result.1, result.2, decide (result.2 < target_min))

/- Basic facts about the shuffle and the grid. -/

theorem perm_get_cons_eraseIdx {α : Type} (l : List α) (j : Nat) (h : j < l.length) :
    l.Perm (l.get ⟨j, h⟩ :: l.eraseIdx j) := by
  induction l generalizing j with
  | nil => simp at h
  | cons a t ih =>
    cases j with
    | zero => simp
    | succ j =>
      have hj : j < t.length := by simpa using h
      have := (ih j hj).cons a
      simpa [List.eraseIdx] using this.trans (List.Perm.swap _ _ _)

theorem shuffleAux_perm {α : Type} (n : Nat) (s : Nat) (l : List α) :
    (shuffleAux s n l).Perm l := by
  induction n generalizing s l with
  | zero => cases l <;> simp [shuffleAux]
  | succ n ih =>
    cases l with
    | nil => simp [shuffleAux]
    | cons a t =>
      have hlen : s % (a :: t).length < (a :: t).length :=
        Nat.mod_lt _ (by simp)
      simp only [shuffleAux]
      rw [List.get?_eq_get hlen]
      exact ((ih (lcgNext s) _).cons _).trans
        (perm_get_cons_eraseIdx (a :: t) _ hlen).symm

theorem npShuffle_perm {α : Type} (seed : Nat) (l : List α) :
    (npShuffle seed l).Perm l :=
  shuffleAux_perm l.length seed l

theorem mem_pyRange {stop : Int} {step : Nat} (hstep : 0 < step) (x : Nat) :
    x ∈ pyRange stop step ↔ (x : Int) < stop ∧ step ∣ x := by
  unfold pyRange
  by_cases hs : stop ≤ 0
  · simp only [hs, if_true, List.not_mem_nil, false_iff]
    intro ⟨hx, _⟩
    omega
  · simp only [hs, if_false, List.mem_map, List.mem_range]
    push_neg at hs
    constructor
    · rintro ⟨i, hi, rfl⟩
      refine ⟨?_, dvd_mul_right step i⟩
      have h1 : i ≤ (stop.toNat - 1) / step := Nat.lt_succ_iff.mp hi
      have h2 : i * step ≤ stop.toNat - 1 := (Nat.le_div_iff_mul_le hstep).mp h1
      have h2' : step * i ≤ stop.toNat - 1 := by rw [Nat.mul_comm]; exact h2
      omega
    · rintro ⟨hx, i, rfl⟩
      refine ⟨i, ?_, rfl⟩
      have hx2 : step * i ≤ stop.toNat - 1 := by omega
      have hx3 : i * step ≤ stop.toNat - 1 := by rw [Nat.mul_comm]; exact hx2
      exact Nat.lt_succ_of_le ((Nat.le_div_iff_mul_le hstep).mpr hx3)

theorem mem_gridCoords {height width patch_size stride : Nat}
    (hstride : 0 < stride) (rc : Nat × Nat) :
    rc ∈ gridCoords height width patch_size stride ↔
      ((rc.1 : Int) ≤ (height : Int) - patch_size ∧
       (rc.2 : Int) ≤ (width : Int) - patch_size ∧
       stride ∣ rc.1 ∧ stride ∣ rc.2) := by
  obtain ⟨r, c⟩ := rc
  simp only [gridCoords, List.mem_flatMap, List.mem_map, Prod.mk.injEq]
  constructor
  · rintro ⟨row, hrow, col, hcol, rfl, rfl⟩
    have h1 := (mem_pyRange hstride row).mp hrow
    have h2 := (mem_pyRange hstride col).mp hcol
    exact ⟨by omega, by omega, h1.2, h2.2⟩
  · rintro ⟨h1, h2, h3, h4⟩
    exact ⟨r, (mem_pyRange hstride r).mpr ⟨by omega, h3⟩,
           c, (mem_pyRange hstride c).mpr ⟨by omega, h4⟩, rfl, rfl⟩

/- Helper lemmas about the embedded loops. -/

theorem gridCoords_eq_nil {h w p s : Nat} (hlt : h < p ∨ w < p) :
    gridCoords h w p s = [] := by
  rcases hlt with h1 | h1
  · have hz : ((h : Int) - p + 1) ≤ 0 := by omega
    simp [gridCoords, pyRange, hz]
  · have hz : ((w : Int) - p + 1) ≤ 0 := by omega
    simp [gridCoords, pyRange, hz]

theorem hansenPatchLoop_spec {α : Type} [Inhabited α] (tree loss : NDArray α)
    (p tmax : Nat) :
    ∀ (coords : List (Nat × Nat)) (total : Nat) (acc : List (HansenPatch α)),
      total ≤ tmax →
      (hansenPatchLoop tree loss p tmax coords total acc).2 =
        min (total + coords.length) tmax ∧
      (hansenPatchLoop tree loss p tmax coords total acc).1.length =
        acc.length + (min (total + coords.length) tmax - total) := by
  intro coords
  induction coords with
  | nil =>
    intro total acc h
    simp only [hansenPatchLoop, List.length_nil]
    omega
  | cons rc rest ih =>
    intro total acc h
    by_cases hst : tmax ≤ total
    · simp only [hansenPatchLoop, if_pos hst, List.length_cons]
      omega
    · have h1 : total + 1 ≤ tmax := by omega
      obtain ⟨e1, e2⟩ := ih (total + 1)
        (acc ++ [⟨tree.slice2 rc.1 rc.2 p, loss.slice2 rc.1 rc.2 p, rc.1, rc.2, p⟩]) h1
      simp only [hansenPatchLoop, if_neg hst, List.length_cons]
      rw [e1, e2]
      simp only [List.length_append, List.length_cons, List.length_nil]
      omega

theorem s2PatchLoop_spec {α : Type} [Inhabited α] (stacked : NDArray α)
    (p tmax : Nat) :
    ∀ (coords : List (Nat × Nat)) (total : Nat) (acc : List (S2Patch α)),
      total ≤ tmax →
      (s2PatchLoop stacked p tmax coords total acc).2 =
        min (total + coords.length) tmax ∧
      (s2PatchLoop stacked p tmax coords total acc).1.length =
        acc.length + (min (total + coords.length) tmax - total) := by
  intro coords
  induction coords with
  | nil =>
    intro total acc h
    simp only [s2PatchLoop, List.length_nil]
    omega
  | cons rc rest ih =>
    intro total acc h
    by_cases hst : tmax ≤ total
    · simp only [s2PatchLoop, if_pos hst, List.length_cons]
      omega
    · have h1 : total + 1 ≤ tmax := by omega
      obtain ⟨e1, e2⟩ := ih (total + 1)
        (acc ++ [⟨stacked.slice3 rc.1 rc.2 p, rc.1, rc.2, p, [2018, 2022]⟩]) h1
      simp only [s2PatchLoop, if_neg hst, List.length_cons]
      rw [e1, e2]
      simp only [List.length_append, List.length_cons, List.length_nil]
      omega

theorem buildRowsLoop_append (aoi : String)
    (labels : List (String × Npz PyFloat)) :
    ∀ (features : List (String × Npz PyFloat)) (rows : List Row),
      buildRowsLoop aoi labels features rows =
        rows ++ buildRowsLoop aoi labels features [] := by
  intro features
  induction features with
  | nil => intro rows; simp [buildRowsLoop]
  | cons fp rest ih =>
    intro rows
    cases hlk : lookupName fp.fst labels with
    | none => simp only [buildRowsLoop, hlk]; exact ih rows
    | some lz =>
      simp only [buildRowsLoop, hlk, List.nil_append]
      rw [ih (rows ++ [mkRow aoi fp.fst fp.snd lz]),
          ih [mkRow aoi fp.fst fp.snd lz]]
      simp

theorem buildRowsLoop_eq_filterMap (aoi : String)
    (labels : List (String × Npz PyFloat)) :
    ∀ features : List (String × Npz PyFloat),
      buildRowsLoop aoi labels features [] =
        features.filterMap (fun fp => (lookupName fp.fst labels).map
          (fun lz => mkRow aoi fp.fst fp.snd lz)) := by
  intro features
  induction features with
  | nil => simp [buildRowsLoop]
  | cons fp rest ih =>
    cases hlk : lookupName fp.fst labels with
    | none => simp [buildRowsLoop, hlk, ih]
    | some lz =>
      have h1 : buildRowsLoop aoi labels (fp :: rest) [] =
          buildRowsLoop aoi labels rest [mkRow aoi fp.fst fp.snd lz] := by
        simp [buildRowsLoop, hlk]
      rw [h1, buildRowsLoop_append aoi labels rest [mkRow aoi fp.fst fp.snd lz], ih]
      simp [List.filterMap_cons, hlk]

/- Claim theorems. -/

/-- C2: for every (height, width, patch_size, stride) with positive
patch_size and stride, the coordinate generation step of the Hansen patch
extractor and that of the Sentinel‑2 patch extractor produce the identical
shuffled sequence of (row, col) coordinates, and repeated invocations of
either (under arbitrary ambient RNG states g1, g2) produce a bit‑identical
sequence, both seeding `np.random.default_rng` with the constant 42. -/
theorem C2_coords_shared_and_deterministic
    (g1 g2 : Nat) (height width patch_size stride : Nat)
    (_hp : 0 < patch_size) (_hs : 0 < stride) :
    hansenCoords g1 height width patch_size stride =
      s2Coords g2 height width patch_size stride ∧
    hansenCoords g1 height width patch_size stride =
      hansenCoords g2 height width patch_size stride ∧
    s2Coords g1 height width patch_size stride =
      s2Coords g2 height width patch_size stride :=
  ⟨rfl, rfl, rfl⟩

theorem C2_coords_shared_and_deterministic_witness :
    hansenCoords 0 64 64 32 16 = s2Coords 1 64 64 32 16 :=
  (C2_coords_shared_and_deterministic 0 1 64 64 32 16 (by decide) (by decide)).1

/-- C3: for every (height, width, patch_size, stride) with positive stride,
every coordinate produced by the grid sampler lies in bounds
(`row + patch_size <= height`, `col + patch_size <= width`, i.e.
`0 <= row <= height - patch_size` and likewise for col) and is a multiple
of the stride; the produced sequence is a permutation of the pre‑shuffle
grid (the shuffle adds and removes nothing); the pre‑shuffle grid is
exactly the exhaustive strided grid (membership iff the bounds and
divisibility conditions); and when height < patch_size or
width < patch_size the sequence is empty rather than an error. -/
theorem C3_grid_coverage (height width patch_size stride : Nat)
    (hs : 0 < stride) :
    (∀ rc ∈ hansenCoords 0 height width patch_size stride,
       rc.1 + patch_size ≤ height ∧ rc.2 + patch_size ≤ width ∧
       stride ∣ rc.1 ∧ stride ∣ rc.2) ∧
    (hansenCoords 0 height width patch_size stride).Perm
      (gridCoords height width patch_size stride) ∧
    (∀ rc : Nat × Nat, rc ∈ gridCoords height width patch_size stride ↔
       (rc.1 + patch_size ≤ height ∧ rc.2 + patch_size ≤ width ∧
        stride ∣ rc.1 ∧ stride ∣ rc.2)) ∧
    ((height < patch_size ∨ width < patch_size) →
       hansenCoords 0 height width patch_size stride = []) := by
  have hperm : (hansenCoords 0 height width patch_size stride).Perm
      (gridCoords height width patch_size stride) :=
    npShuffle_perm 42 (gridCoords height width patch_size stride)
  have hmem : ∀ rc : Nat × Nat, rc ∈ gridCoords height width patch_size stride ↔
      (rc.1 + patch_size ≤ height ∧ rc.2 + patch_size ≤ width ∧
       stride ∣ rc.1 ∧ stride ∣ rc.2) := by
    intro rc
    rw [mem_gridCoords hs rc]
    omega
  refine ⟨?_, hperm, hmem, ?_⟩
  · intro rc hrc
    exact (hmem rc).mp (hperm.mem_iff.mp hrc)
  · intro hlt
    show npShuffle 42 (gridCoords height width patch_size stride) = []
    rw [gridCoords_eq_nil hlt]
    rfl

theorem C3_grid_coverage_witness :
    (hansenCoords 0 64 64 32 16).Perm (gridCoords 64 64 32 16) :=
  (C3_grid_coverage 64 64 32 16 (by decide)).2.1

/-- C1: the claim (and the docstring of `extract_ndvi_means`) says a
single‑key container holding a 3‑D array of shape (2, 32, 32) resolves to
(arr[0], arr[1]).  The code checks `arr.shape[2] >= 2` first, and 32 >= 2,
so it actually returns the last‑axis slices (arr[:, :, 0], arr[:, :, 1]) —
arrays of shape (2, 32), not the (32, 32) bands: the code contradicts its
own documentation on exactly this input.  This theorem evaluates the
embedded code at that failing input (with `arange(2048)` contents). -/
theorem C1_band_first_shape_bug :
    let arr : NDArray Nat := ⟨[2, 32, 32], List.range 2048⟩
    let z : Npz Nat := ⟨[("ndvi", arr)]⟩
    extract_ndvi_means z = (arr.sliceLast 0, arr.sliceLast 1) ∧
    extract_ndvi_means z ≠ (arr.sliceFirst 0, arr.sliceFirst 1) ∧
    (arr.sliceLast 0).shape = [2, 32] ∧ (arr.sliceFirst 0).shape = [32, 32] := by
  refine ⟨rfl, by decide, rfl, rfl⟩

/-- C6: the table builder computes `loss_binary = int(loss_fraction >= 0.5)`:
the binary label is 1 exactly when the IEEE comparison against 0.5 holds;
for a finite loss_fraction q this is 1 iff 1/2 <= q and 0 iff q < 1/2; a
label patch with mean exactly 0.5 gets loss_binary 1, and one with mean
0.4999 gets loss_binary 0. -/
theorem C6_binarization (aoi name : String) (f l : Npz PyFloat) :
    ((mkRow aoi name f l).loss_binary = 1 ↔
       floatGe (mkRow aoi name f l).loss_fraction (1 / 2) = true) ∧
    (∀ q : ℚ, (mkRow aoi name f l).loss_fraction = some q →
       ((mkRow aoi name f l).loss_binary = 1 ↔ 1 / 2 ≤ q) ∧
       ((mkRow aoi name f l).loss_binary = 0 ↔ q < 1 / 2)) ∧
    (mkRow "a" "p" ⟨[]⟩ ⟨[("label", ⟨[2], [some 0, some 1]⟩)]⟩).loss_fraction
      = some (1 / 2) ∧
    (mkRow "a" "p" ⟨[]⟩ ⟨[("label", ⟨[2], [some 0, some 1]⟩)]⟩).loss_binary = 1 ∧
    (mkRow "a" "p" ⟨[]⟩
       ⟨[("label", ⟨[1], [some (4999 / 10000)]⟩)]⟩).loss_fraction
      = some (4999 / 10000) ∧
    (mkRow "a" "p" ⟨[]⟩
       ⟨[("label", ⟨[1], [some (4999 / 10000)]⟩)]⟩).loss_binary = 0 := by
  refine ⟨?_, ?_, ?_, ?_, ?_, ?_⟩
  · by_cases hb : floatGe (nanmean (extract_label_array l)) (1 / 2)
    · simp [mkRow, hb]
    · simp [mkRow, hb]
  · intro q hq
    have hq2 : nanmean (extract_label_array l) = some q := by
      simpa [mkRow] using hq
    by_cases hcmp : (1 : ℚ) / 2 ≤ q
    · constructor
      · simp [mkRow, hq2, floatGe, hcmp]
      · simp [mkRow, hq2, floatGe, hcmp]
    · constructor
      · simp [mkRow, hq2, floatGe, hcmp]
      · simp only [mkRow, hq2, floatGe]
        simp [hcmp, lt_of_not_ge hcmp]
  · norm_num [mkRow, nanmean, extract_label_array, Npz.get, Npz.files,
      List.filterMap_cons, List.filterMap_nil, id_eq, List.sum_cons, List.sum_nil]
  · norm_num [mkRow, nanmean, extract_label_array, Npz.get, Npz.files, floatGe,
      List.filterMap_cons, List.filterMap_nil, id_eq, List.sum_cons, List.sum_nil]
  · norm_num [mkRow, nanmean, extract_label_array, Npz.get, Npz.files,
      List.filterMap_cons, List.filterMap_nil, id_eq, List.sum_cons, List.sum_nil]
  · norm_num [mkRow, nanmean, extract_label_array, Npz.get, Npz.files, floatGe,
      List.filterMap_cons, List.filterMap_nil, id_eq, List.sum_cons, List.sum_nil]

/-- C10: when every entry of the resolved label array is NaN, the table
builder still produces a row and raises nothing: `np.nanmean` returns NaN
(with only a RuntimeWarning), so loss_fraction is NaN, and the IEEE
comparison `NaN >= 0.5` is false, so loss_binary is 0; the feature/label
pair still contributes its row to the table. -/
theorem C10_all_nan_label (aoi name : String) (f lz : Npz PyFloat)
    (hnan : ∀ x ∈ (extract_label_array lz).data, x = none) :
    (mkRow aoi name f lz).loss_fraction = none ∧
    (mkRow aoi name f lz).loss_binary = 0 ∧
    buildRowsLoop aoi [(name, lz)] [(name, f)] [] = [mkRow aoi name f lz] := by
  have hm : nanmean (extract_label_array lz) = none := by
    unfold nanmean
    have he : (extract_label_array lz).data.filterMap id = [] :=
      List.filterMap_eq_nil_iff.mpr (fun a ha => hnan a ha)
    rw [he]
    rfl
  refine ⟨by simp [mkRow, hm], by simp [mkRow, hm, floatGe], ?_⟩
  simp [buildRowsLoop, lookupName]

theorem C10_all_nan_label_witness :
    (mkRow "la_pampa" "patch_000000.npz" ⟨[]⟩
       ⟨[("label", ⟨[2, 2], [none, none, none, none]⟩)]⟩).loss_fraction = none ∧
    (mkRow "la_pampa" "patch_000000.npz" ⟨[]⟩
       ⟨[("label", ⟨[2, 2], [none, none, none, none]⟩)]⟩).loss_binary = 0 :=
  ⟨(C10_all_nan_label "la_pampa" "patch_000000.npz" ⟨[]⟩
      ⟨[("label", ⟨[2, 2], [none, none, none, none]⟩)]⟩ (by decide)).1,
   (C10_all_nan_label "la_pampa" "patch_000000.npz" ⟨[]⟩
      ⟨[("label", ⟨[2, 2], [none, none, none, none]⟩)]⟩ (by decide)).2.1⟩

theorem generate_patches_from_hansen_ok {α : Type} [Inhabited α]
    (tree loss : NDArray α) (p s tmin tmax : Nat) (h : tree.shape = loss.shape) :
    generate_patches_from_hansen tree loss p s tmin tmax =
      Except.ok
        ((hansenPatchLoop tree loss p tmax
            (npShuffle 42 (gridCoords (tree.shapeAt 0) (tree.shapeAt 1) p s)) 0 []).1,
         (hansenPatchLoop tree loss p tmax
            (npShuffle 42 (gridCoords (tree.shapeAt 0) (tree.shapeAt 1) p s)) 0 []).2,
         decide ((hansenPatchLoop tree loss p tmax
            (npShuffle 42 (gridCoords (tree.shapeAt 0) (tree.shapeAt 1) p s)) 0 []).2
              < tmin)) := by
  unfold generate_patches_from_hansen
  rw [if_neg (by simp [h])]

theorem generate_patches_from_ndvi_pair_ok {α : Type} [Inhabited α]
    (ndvi18 ndvi22 : NDArray α) (p s tmin tmax : Nat)
    (h : ndvi18.shape = ndvi22.shape) :
    generate_patches_from_ndvi_pair ndvi18 ndvi22 p s tmin tmax =
      Except.ok
        ((s2PatchLoop (npStack2 ndvi18 ndvi22) p tmax
            (npShuffle 42 (gridCoords ((npStack2 ndvi18 ndvi22).shapeAt 1)
              ((npStack2 ndvi18 ndvi22).shapeAt 2) p s)) 0 []).1,
         (s2PatchLoop (npStack2 ndvi18 ndvi22) p tmax
            (npShuffle 42 (gridCoords ((npStack2 ndvi18 ndvi22).shapeAt 1)
              ((npStack2 ndvi18 ndvi22).shapeAt 2) p s)) 0 []).2,
         decide ((s2PatchLoop (npStack2 ndvi18 ndvi22) p tmax
            (npShuffle 42 (gridCoords ((npStack2 ndvi18 ndvi22).shapeAt 1)
              ((npStack2 ndvi18 ndvi22).shapeAt 2) p s)) 0 []).2 < tmin)) := by
  unfold generate_patches_from_ndvi_pair
  rw [if_neg (by simp [h])]

theorem stack2_shapeAt {α : Type} (x y : NDArray α) :
    (npStack2 x y).shapeAt 1 = x.shapeAt 0 ∧
    (npStack2 x y).shapeAt 2 = x.shapeAt 1 := by
  constructor <;> simp [npStack2, NDArray.shapeAt]

theorem hansenLoop_clamp {α : Type} [Inhabited α] (tree loss : NDArray α)
    (p tmin tmax M : Nat) (coords : List (Nat × Nat)) (hmm : tmin ≤ tmax)
    (hlen : coords.length = M) :
    (hansenPatchLoop tree loss p tmax coords 0 []).1.length = min M tmax ∧
    (hansenPatchLoop tree loss p tmax coords 0 []).2 = min M tmax ∧
    (tmax < M → (hansenPatchLoop tree loss p tmax coords 0 []).1.length = tmax) ∧
    (M < tmin → (hansenPatchLoop tree loss p tmax coords 0 []).1.length = M ∧
      decide ((hansenPatchLoop tree loss p tmax coords 0 []).2 < tmin) = true) := by
  obtain ⟨e1, e2⟩ := hansenPatchLoop_spec tree loss p tmax coords 0 [] (Nat.zero_le _)
  rw [hlen] at e1 e2
  simp only [List.length_nil, Nat.zero_add, Nat.sub_zero] at e1 e2
  refine ⟨e2, e1, fun hlt => by rw [e2]; omega,
    fun hlt => ⟨by rw [e2]; omega, ?_⟩⟩
  simp only [decide_eq_true_eq]
  rw [e1]
  omega

theorem s2Loop_clamp {α : Type} [Inhabited α] (stacked : NDArray α)
    (p tmin tmax M : Nat) (coords : List (Nat × Nat)) (hmm : tmin ≤ tmax)
    (hlen : coords.length = M) :
    (s2PatchLoop stacked p tmax coords 0 []).1.length = min M tmax ∧
    (s2PatchLoop stacked p tmax coords 0 []).2 = min M tmax ∧
    (tmax < M → (s2PatchLoop stacked p tmax coords 0 []).1.length = tmax) ∧
    (M < tmin → (s2PatchLoop stacked p tmax coords 0 []).1.length = M ∧
      decide ((s2PatchLoop stacked p tmax coords 0 []).2 < tmin) = true) := by
  obtain ⟨e1, e2⟩ := s2PatchLoop_spec stacked p tmax coords 0 [] (Nat.zero_le _)
  rw [hlen] at e1 e2
  simp only [List.length_nil, Nat.zero_add, Nat.sub_zero] at e1 e2
  refine ⟨e2, e1, fun hlt => by rw [e2]; omega,
    fun hlt => ⟨by rw [e2]; omega, ?_⟩⟩
  simp only [decide_eq_true_eq]
  rw [e1]
  omega

/-- C4: for every grid with M valid coordinates (and co‑registered inputs,
with the configured targets satisfying target_min <= target_max as in
config_aoi.py), each extractor emits exactly min(M, target_max) artifacts
and reports that count: when M > target_max it stops at exactly target_max
with coordinates remaining, and when M < target_min it emits all M
artifacts and sets the warning flag, returning normally (Except.ok) rather
than raising. -/
theorem C4_target_clamp {α : Type} [Inhabited α]
    (tree loss ndvi18 ndvi22 : NDArray α)
    (patch_size stride target_min target_max M M2 : Nat)
    (h1 : tree.shape = loss.shape) (h2 : ndvi18.shape = ndvi22.shape)
    (hmm : target_min ≤ target_max)
    (hM : M = (gridCoords (tree.shapeAt 0) (tree.shapeAt 1) patch_size stride).length)
    (hM2 : M2 = (gridCoords (ndvi18.shapeAt 0) (ndvi18.shapeAt 1) patch_size stride).length) :
    ∃ r : List (HansenPatch α) × Nat × Bool,
      generate_patches_from_hansen tree loss patch_size stride target_min target_max
        = Except.ok r ∧
      r.1.length = min M target_max ∧ r.2.1 = min M target_max ∧
      (target_max < M → r.1.length = target_max) ∧
      (M < target_min → r.1.length = M ∧ r.2.2 = true) ∧
      ∃ r2 : List (S2Patch α) × Nat × Bool,
        generate_patches_from_ndvi_pair ndvi18 ndvi22 patch_size stride target_min
            target_max = Except.ok r2 ∧
        r2.1.length = min M2 target_max ∧ r2.2.1 = min M2 target_max ∧
        (target_max < M2 → r2.1.length = target_max) ∧
        (M2 < target_min → r2.1.length = M2 ∧ r2.2.2 = true) := by
  have hH := hansenLoop_clamp tree loss patch_size target_min target_max M
    (npShuffle 42 (gridCoords (tree.shapeAt 0) (tree.shapeAt 1) patch_size stride))
    hmm (by rw [hM]; exact (npShuffle_perm _ _).length_eq)
  have hs2eq := stack2_shapeAt ndvi18 ndvi22
  have hS := s2Loop_clamp (npStack2 ndvi18 ndvi22) patch_size target_min target_max
    M2 (npShuffle 42 (gridCoords ((npStack2 ndvi18 ndvi22).shapeAt 1)
      ((npStack2 ndvi18 ndvi22).shapeAt 2) patch_size stride))
    hmm (by rw [hs2eq.1, hs2eq.2, hM2]; exact (npShuffle_perm _ _).length_eq)
  exact ⟨_, generate_patches_from_hansen_ok tree loss patch_size stride
      target_min target_max h1,
    hH.1, hH.2.1, hH.2.2.1, hH.2.2.2,
    _, generate_patches_from_ndvi_pair_ok ndvi18 ndvi22 patch_size stride
      target_min target_max h2,
    hS.1, hS.2.1, hS.2.2.1, hS.2.2.2⟩

theorem C4_target_clamp_witness :
    ∃ r : List (HansenPatch PyFloat) × Nat × Bool,
      generate_patches_from_hansen (⟨[64, 64], []⟩ : NDArray PyFloat)
          ⟨[64, 64], []⟩ 32 16 4 5 = Except.ok r ∧
      r.1.length = min 9 5 ∧ r.2.1 = min 9 5 ∧
      (5 < 9 → r.1.length = 5) ∧
      (9 < 4 → r.1.length = 9 ∧ r.2.2 = true) ∧
      ∃ r2 : List (S2Patch PyFloat) × Nat × Bool,
        generate_patches_from_ndvi_pair (⟨[64, 64], []⟩ : NDArray PyFloat)
            ⟨[64, 64], []⟩ 32 16 4 5 = Except.ok r2 ∧
        r2.1.length = min 9 5 ∧ r2.2.1 = min 9 5 ∧
        (5 < 9 → r2.1.length = 5) ∧
        (9 < 4 → r2.1.length = 9 ∧ r2.2.2 = true) :=
  C4_target_clamp ⟨[64, 64], []⟩ ⟨[64, 64], []⟩ ⟨[64, 64], []⟩ ⟨[64, 64], []⟩
    32 16 4 5 9 9 rfl rfl (by decide) (by decide) (by decide)

/-- C5: each patch extractor checks the co‑registered rasters for an
identical (height, width) before generating any coordinate or artifact:
on a mismatch it raises (`Except.error`, carrying no artifacts — no partial
output), and when the shapes agree the error branch is unreachable and the
call returns `Except.ok`. -/
theorem C5_shape_mismatch {α : Type} [Inhabited α]
    (tree loss ndvi18 ndvi22 : NDArray α) (p s tmin tmax : Nat) :
    (tree.shape ≠ loss.shape →
      generate_patches_from_hansen tree loss p s tmin tmax =
        Except.error "Shape mismatch between treecover and loss") ∧
    (tree.shape = loss.shape →
      ∃ r, generate_patches_from_hansen tree loss p s tmin tmax = Except.ok r) ∧
    (ndvi18.shape ≠ ndvi22.shape →
      generate_patches_from_ndvi_pair ndvi18 ndvi22 p s tmin tmax =
        Except.error "Shape mismatch between NDVI 2018 and NDVI 2022") ∧
    (ndvi18.shape = ndvi22.shape →
      ∃ r, generate_patches_from_ndvi_pair ndvi18 ndvi22 p s tmin tmax =
        Except.ok r) := by
  refine ⟨?_, ?_, ?_, ?_⟩
  · intro h
    unfold generate_patches_from_hansen
    rw [if_pos h]
  · intro h
    exact ⟨_, generate_patches_from_hansen_ok tree loss p s tmin tmax h⟩
  · intro h
    unfold generate_patches_from_ndvi_pair
    rw [if_pos h]
  · intro h
    exact ⟨_, generate_patches_from_ndvi_pair_ok ndvi18 ndvi22 p s tmin tmax h⟩

theorem C5_shape_mismatch_witness :
    generate_patches_from_hansen (⟨[3, 3], []⟩ : NDArray PyFloat)
        ⟨[2, 2], []⟩ 2 1 0 5 =
      Except.error "Shape mismatch between treecover and loss" :=
  (C5_shape_mismatch (⟨[3, 3], []⟩ : NDArray PyFloat) ⟨[2, 2], []⟩
      ⟨[3, 3], []⟩ ⟨[3, 3], []⟩ 2 1 0 5).1 (by decide)

/-- C7: the dataset combiner produces no combined table exactly when every
per‑AOI table is absent; when at least one table exists it returns the
row‑concatenation of the present tables in AOI iteration order, raising no
error for the absent ones. -/
theorem C7_combine (tables : List (Option (List Row))) :
    (combinedMain tables = none ↔ ∀ t ∈ tables, t = none) ∧
    ((∃ t ∈ tables, t ≠ none) →
      combinedMain tables = some (tables.filterMap id).flatten) := by
  have hempty : (tables.filterMap id).isEmpty = true ↔ ∀ t ∈ tables, t = none := by
    rw [List.isEmpty_iff, List.filterMap_eq_nil_iff]
    exact ⟨fun h t ht => h t ht, fun h t ht => h t ht⟩
  constructor
  · constructor
    · intro hc
      by_cases he : (tables.filterMap id).isEmpty = true
      · exact hempty.mp he
      · unfold combinedMain at hc
        rw [if_neg he] at hc
        cases hc
    · intro h
      unfold combinedMain
      rw [if_pos (hempty.mpr h)]
  · rintro ⟨t, ht, htn⟩
    have he : ¬(tables.filterMap id).isEmpty = true := by
      intro he
      exact htn (hempty.mp he t ht)
    unfold combinedMain
    rw [if_neg he]

theorem C7_combine_witness :
    combinedMain [none, some [], none] = some ([] : List Row) :=
  (C7_combine [none, some [], none]).2 ⟨some [], by simp, by simp⟩

/-- C8: whenever the dataset combiner succeeds, the serialized content
written under the primary name and under the descriptive alias is
identical (both are the serialization of the one combined table), and any
two invocations on the same set of per‑AOI tables produce the same output
(the write step is a pure function of the tables). -/
theorem C8_alias_identical (tables : List (Option (List Row))) :
    (∀ primary aliasOut, mainOutputs tables = some (primary, aliasOut) →
      primary = aliasOut) ∧
    (∀ o1 o2, mainOutputs tables = o1 → mainOutputs tables = o2 → o1 = o2) := by
  constructor
  · intro pr al h
    unfold mainOutputs at h
    cases hc : combinedMain tables with
    | none => rw [hc] at h; cases h
    | some c =>
      rw [hc] at h
      simp only [Option.map_some', Option.some.injEq, Prod.mk.injEq] at h
      rw [← h.1, ← h.2]
  · intro o1 o2 h1 h2
    rw [← h1, ← h2]

theorem C8_alias_identical_witness :
    mainOutputs [some []] = some (csvTable [], csvTable []) →
    (csvTable [] : String) = csvTable [] :=
  fun h => (C8_alias_identical [some []]).1 (csvTable []) (csvTable []) h

theorem length_filterMap_lookup (aoi : String)
    (labels : List (String × Npz PyFloat)) :
    ∀ features : List (String × Npz PyFloat),
      (features.filterMap (fun fp => (lookupName fp.fst labels).map
        (fun lz => mkRow aoi fp.fst fp.snd lz))).length =
      (features.filter (fun fp => (lookupName fp.fst labels).isSome)).length := by
  intro features
  induction features with
  | nil => rfl
  | cons fp rest ih =>
    cases hlk : lookupName fp.fst labels with
    | none => simp [List.filterMap_cons, List.filter_cons, hlk, ih]
    | some lz => simp [List.filterMap_cons, List.filter_cons, hlk, ih]

/-- C9: in the per‑AOI table builder, the produced row list is exactly the
in‑order image of the feature artifacts that have a matching label
artifact (so each matched feature contributes exactly one row); the row
count equals the matched‑feature count; a feature with no matching label
contributes no row (no row carries its identifier); and every matched
feature's row is present — the builder returns normally regardless of how
many labels are missing. -/
theorem C9_pairing (aoi : String)
    (features labels : List (String × Npz PyFloat)) :
    buildRowsLoop aoi labels features [] =
      features.filterMap (fun fp => (lookupName fp.fst labels).map
        (fun lz => mkRow aoi fp.fst fp.snd lz)) ∧
    (buildRowsLoop aoi labels features []).length =
      (features.filter (fun fp => (lookupName fp.fst labels).isSome)).length ∧
    (∀ fp ∈ features, lookupName fp.fst labels = none →
      ∀ r ∈ buildRowsLoop aoi labels features [], r.patch_file ≠ fp.fst) ∧
    (∀ fp ∈ features, ∀ lz, lookupName fp.fst labels = some lz →
      mkRow aoi fp.fst fp.snd lz ∈ buildRowsLoop aoi labels features []) := by
  have hfm := buildRowsLoop_eq_filterMap aoi labels features
  refine ⟨hfm, ?_, ?_, ?_⟩
  · rw [hfm]
    exact length_filterMap_lookup aoi labels features
  · intro fp _ hnone r hr hname
    rw [hfm] at hr
    obtain ⟨fq, hfq, heq⟩ := List.mem_filterMap.mp hr
    cases hlk : lookupName fq.fst labels with
    | none => rw [hlk] at heq; cases heq
    | some lz =>
      rw [hlk] at heq
      simp only [Option.map_some', Option.some.injEq] at heq
      have : r.patch_file = fq.fst := by rw [← heq]; rfl
      rw [this] at hname
      rw [hname] at hlk
      rw [hlk] at hnone
      cases hnone
  · intro fp hfp lz hlk
    rw [hfm]
    exact List.mem_filterMap.mpr ⟨fp, hfp, by rw [hlk]; rfl⟩

theorem C9_pairing_witness :
    buildRowsLoop "a" [("p1", ⟨[]⟩)] [("p0", ⟨[]⟩), ("p1", ⟨[]⟩)] [] =
      [mkRow "a" "p1" ⟨[]⟩ ⟨[]⟩] := by
  have h := (C9_pairing "a" [("p0", ⟨[]⟩), ("p1", ⟨[]⟩)] [("p1", ⟨[]⟩)]).1
  rw [h]
  rfl

end Deforestation
